import Mathlib

/-!
Verification of the `jwl` worklog CLI client (src/worklog_api.rs, src/main.rs).

The Rust source is shallowly embedded: JSON values become an inductive `Json`
type, serde (de)serialization of the wire structs becomes explicit parse and
serialize functions, `chrono` dates and the format strings used by the source
(`%FT%X.%3f%z`, `%s000`) become explicit formatting functions over a calendar
date / datetime record, and the two HTTP operations become functions from the
(abstracted) transport outcome to the `Result` the Rust functions return.
-/

/-- JSON values, the carrier for request and response bodies. -/
inductive Json where
  | null
  | str (s : String)
  | num (n : Int)
  | bool (b : Bool)
  | arr (elems : List Json)
  | obj (fields : List (String × Json))
  deriving Repr

/-- First-match lookup of a key in a JSON object's field list. -/
def Json.lookupField (fields : List (String × Json)) (key : String) : Option Json :=
  match fields with
  | [] => none
  | (k, v) :: rest => if k = key then some v else Json.lookupField rest key

/-- Left-pad the decimal rendering of a number with zeroes to a given width,
mirroring chrono's zero-padded numeric format specifiers. -/
def padZero (width : Nat) (n : Nat) : String :=
  let s := toString n
  String.mk (List.replicate (width - s.length) '0') ++ s

/-- A calendar date in UTC, embedding chrono's `Date<Utc>`. -/
structure Date where
  year : Nat
  month : Nat
  day : Nat
  deriving Repr, DecidableEq

/-- A timestamp in UTC, embedding chrono's `DateTime<Utc>`. -/
structure DateTime where
  date : Date
  hour : Nat
  minute : Nat
  second : Nat
  nano : Nat
  deriving Repr, DecidableEq

/-- Embeds chrono's `Date::and_hms`: a datetime on the given date with the given
time of day and zero nanoseconds. -/
def Date.and_hms (d : Date) (hour minute second : Nat) : DateTime :=
  ⟨d, hour, minute, second, 0⟩

/-- Days since 1970-01-01 of a civil date (Howard Hinnant's `days_from_civil`
algorithm, which chrono's Gregorian calendar arithmetic implements). -/
def daysFromCivil (d : Date) : Int :=
  let y : Int := if d.month ≤ 2 then (d.year : Int) - 1 else (d.year : Int)
  let era : Int := (if 0 ≤ y then y else y - 399) / 400
  let yoe : Int := y - era * 400
  let doy : Int := (153 * ((d.month : Int) + (if 2 < d.month then -3 else 9)) + 2) / 5
      + (d.day : Int) - 1
  let doe : Int := yoe * 365 + yoe / 4 - yoe / 100 + doy
  era * 146097 + doe - 719468

/-- Seconds since the Unix epoch of a UTC datetime (chrono's `%s`, which
truncates sub-second precision). -/
def DateTime.epochSeconds (dt : DateTime) : Int :=
  daysFromCivil dt.date * 86400 + (dt.hour : Int) * 3600 + (dt.minute : Int) * 60
    + (dt.second : Int)

/-- Embeds chrono's `format("%s000")` on a `DateTime<Utc>`: the whole-second
Unix timestamp with the three characters `000` appended. -/
def DateTime.formatS000 (dt : DateTime) : String :=
  toString dt.epochSeconds ++ "000"

/-- Embeds chrono's `%F` (`%Y-%m-%d`) date format: zero-padded 4-digit year,
2-digit month and 2-digit day. -/
def Date.formatF (d : Date) : String :=
  padZero 4 d.year ++ "-" ++ padZero 2 d.month ++ "-" ++ padZero 2 d.day

/-- Embeds chrono's `format("%FT%X.%3f%z")` on a `DateTime<Utc>`: date, literal
`T`, `HH:MM:SS`, dot, milliseconds (nanoseconds truncated to 3 digits), and the
UTC offset `+0000`. -/
def DateTime.formatFTXf3z (dt : DateTime) : String :=
  dt.date.formatF ++ "T" ++ padZero 2 dt.hour ++ ":" ++ padZero 2 dt.minute
    ++ ":" ++ padZero 2 dt.second ++ "." ++ padZero 3 (dt.nano / 1000000) ++ "+0000"

/-- The error taxonomy of the client (`ApiError` in src/worklog_api.rs). -/
inductive ApiError where
  | InvalidBaseUrl (base_url : String)
  | Unauthorized
  | NotFound (kind : String) (name : String)
  | SerializationError
  | UnknownError
  deriving Repr, DecidableEq

/-- Credential variants (`Authorization` in src/worklog_api.rs). -/
inductive Authorization where
  | ApiToken (username : String) (api_token : String)
  | AccessToken (access_token : String)
  deriving Repr, DecidableEq

/-- Inbound author record (`AuthorResponse`). -/
structure AuthorResponse where
  display_name : String
  deriving Repr, DecidableEq

/-- Inbound worklog record (`WorklogResponse`). -/
structure WorklogResponse where
  author : AuthorResponse
  comment : Option String
  time_spent : String
  deriving Repr, DecidableEq

/-- Inbound first-page wrapper (`PagedWorklogResponse`): only the `worklogs`
list is retained. -/
structure PagedWorklogResponse where
  worklogs : List WorklogResponse
  deriving Repr, DecidableEq

/-- View-request parameters (`ViewWorklogDto`). -/
structure ViewWorklogDto where
  issue : String
  «from» : Option DateTime
  «until» : Option DateTime
  deriving Repr, DecidableEq

/-- Create-request parameters (`CreateWorklogDto`). -/
structure CreateWorklogDto where
  issue : String
  comment : Option String
  time_spent : String
  started : Date
  deriving Repr, DecidableEq

/-- Outbound wire body for worklog creation (`WorklogAddBody`). -/
structure WorklogAddBody where
  comment : Option String
  time_spent : String
  started : String
  deriving Repr, DecidableEq

/-- Embeds `From<CreateWorklogDto> for WorklogAddBody`: the comment and time
spent are passed through and `started` is the dto's date at noon formatted with
`%FT%X.%3f%z`. -/
def WorklogAddBody.ofDto (dto : CreateWorklogDto) : WorklogAddBody :=
  { comment := dto.comment
    time_spent := dto.time_spent
    started := (dto.started.and_hms 12 0 0).formatFTXf3z }

/-- Embeds serde serialization of `WorklogAddBody` (camelCase field names,
`Option` as null / string, no skip attribute). -/
def WorklogAddBody.toJson (body : WorklogAddBody) : Json :=
  Json.obj
    [ ("comment", match body.comment with | none => Json.null | some c => Json.str c)
    , ("timeSpent", Json.str body.time_spent)
    , ("started", Json.str body.started) ]

/-- Embeds serde deserialization of `AuthorResponse`: requires a JSON object
with a string field `displayName`; unknown fields are ignored. -/
def parseAuthorResponse (j : Json) : Option AuthorResponse :=
  match j with
  | Json.obj fields =>
    match Json.lookupField fields "displayName" with
    | some (Json.str s) => some ⟨s⟩
    | _ => none
  | _ => none

/-- Embeds serde deserialization of `WorklogResponse`: requires an object with
an `author` sub-object and a string `timeSpent`; `comment` is optional
(absent or null yields `none`); unknown fields are ignored. -/
def parseWorklogResponse (j : Json) : Option WorklogResponse :=
  match j with
  | Json.obj fields =>
    match parseAuthorResponse ((Json.lookupField fields "author").getD Json.null),
        Json.lookupField fields "timeSpent" with
    | some author, some (Json.str ts) =>
      match Json.lookupField fields "comment" with
      | none => some ⟨author, none, ts⟩
      | some Json.null => some ⟨author, none, ts⟩
      | some (Json.str c) => some ⟨author, some c, ts⟩
      | some _ => none
    | _, _ => none
  | _ => none

/-- Elementwise deserialization of a JSON array of worklog records; any
ill-formed element fails the whole parse, as serde does for `Vec<_>`. -/
def parseWorklogList (elems : List Json) : Option (List WorklogResponse) :=
  match elems with
  | [] => some []
  | j :: rest =>
    match parseWorklogResponse j, parseWorklogList rest with
    | some w, some ws => some (w :: ws)
    | _, _ => none

/-- Embeds serde deserialization of `PagedWorklogResponse`: requires an object
with a `worklogs` array whose elements all parse; every other field is
ignored. -/
def parsePagedWorklogResponse (j : Json) : Option PagedWorklogResponse :=
  match j with
  | Json.obj fields =>
    match Json.lookupField fields "worklogs" with
    | some (Json.arr elems) =>
      match parseWorklogList elems with
      | some ws => some ⟨ws⟩
      | none => none
    | _ => none
  | _ => none

/-- Transport-level failure of `reqwest`'s `send()`: either the request could
not be built (`Error::is_builder()`, e.g. a malformed domain) or any other
transport failure. -/
inductive TransportError where
  | builder
  | other
  deriving Repr, DecidableEq

/-- Outcome of one HTTP round trip: a transport error, or a response with a
status code and a body. -/
inductive HttpResult where
  | err (e : TransportError)
  | ok (status : Nat) (body : Json)
  deriving Repr

/-- Embeds `StatusCode::is_success`: 2xx. -/
def isSuccessStatus (status : Nat) : Prop :=
  200 ≤ status ∧ status < 300

instance (status : Nat) : Decidable (isSuccessStatus status) := by
  unfold isSuccessStatus; infer_instance

/-- The query parameters `WorklogApi::worklogs` attaches: `startedAfter` from
the lower bound and `startedBefore` from the upper bound, each only when the
bound is present, each formatted with `%s000`. -/
def worklogQueryParams (context : ViewWorklogDto) : List (String × String) :=
  (match context.from with
   | some f => [("startedAfter", f.formatS000)]
   | none => []) ++
  (match context.until with
   | some u => [("startedBefore", u.formatS000)]
   | none => [])

/-- The request URL both operations build:
`{domain}/rest/api/2/issue/{issue}/worklog`. -/
def worklogUrl (domain issue : String) : String :=
  domain ++ "/rest/api/2/issue/" ++ issue ++ "/worklog"

namespace WorklogApi

/-- Embeds `WorklogApi::worklogs`, with the HTTP round trip abstracted into the
`response` argument: classify transport errors (builder failure carries the
configured domain), then the status code, then on 2xx parse the body as
`PagedWorklogResponse` and return its worklog list. -/
def worklogs (domain : String) (context : ViewWorklogDto) (response : HttpResult) :
    Except ApiError (List WorklogResponse) :=
  match response with
  | HttpResult.err TransportError.builder =>
    Except.error (ApiError.InvalidBaseUrl domain)
  | HttpResult.err TransportError.other => Except.error ApiError.UnknownError
  | HttpResult.ok status body =>
    if isSuccessStatus status then
      match parsePagedWorklogResponse body with
      | some paged => Except.ok paged.worklogs
      | none => Except.error ApiError.SerializationError
    else if status = 404 then
      Except.error (ApiError.NotFound "issue" context.issue)
    else if status = 401 ∨ status = 403 then
      Except.error ApiError.Unauthorized
    else
      Except.error ApiError.UnknownError

/-- Embeds `WorklogApi::create_worklog`, with the HTTP round trip abstracted
into the `response` argument: any transport failure is `UnknownError`, 2xx is
unit success with no body parsed, then 404 / 401 / 403 / other as for list. -/
def create_worklog (dto : CreateWorklogDto) (response : HttpResult) :
    Except ApiError Unit :=
  match response with
  | HttpResult.err _ => Except.error ApiError.UnknownError
  | HttpResult.ok status _ =>
    if isSuccessStatus status then Except.ok ()
    else if status = 404 then
      Except.error (ApiError.NotFound "issue" dto.issue)
    else if status = 401 ∨ status = 403 then
      Except.error ApiError.Unauthorized
    else
      Except.error ApiError.UnknownError

end WorklogApi

/-- An outgoing HTTP request under construction, embedding the parts of
`reqwest::blocking::RequestBuilder` the source touches: the Basic-auth
credential slot and the list of explicit headers. -/
structure RequestBuilder where
  basicAuth : Option (String × Option String)
  headers : List (String × String)
  deriving Repr, DecidableEq

/-- Embeds `RequestBuilder::basic_auth`. -/
def RequestBuilder.basic_auth (rb : RequestBuilder) (username : String)
    (password : Option String) : RequestBuilder :=
  { rb with basicAuth := some (username, password) }

/-- Embeds `RequestBuilder::header`: appends one header. -/
def RequestBuilder.header (rb : RequestBuilder) (key value : String) : RequestBuilder :=
  { rb with headers := rb.headers ++ [(key, value)] }

/-- Embeds `Authorize for RequestBuilder`: `ApiToken` sets HTTP Basic auth with
the username and the api token as password; `AccessToken` adds the header
`Authorization: Bearer <access_token>`. -/
def RequestBuilder.authorize (rb : RequestBuilder) (authorization : Authorization) :
    RequestBuilder :=
  match authorization with
  | Authorization.ApiToken username api_token => rb.basic_auth username (some api_token)
  | Authorization.AccessToken access_token =>
    rb.header "Authorization" ("Bearer " ++ access_token)

/-- CLI-level view context (`ViewContext` in src/main.rs): a date and an
issue id. -/
structure ViewContext where
  date : Date
  issue : String
  deriving Repr, DecidableEq

/-- Embeds `From<ViewContext> for ViewWorklogDto`: bounds are the context's
date at 00:00:00 and at 23:59:59. -/
def ViewWorklogDto.ofContext (context : ViewContext) : ViewWorklogDto :=
  { issue := context.issue
    «from» := some (context.date.and_hms 0 0 0)
    «until» := some (context.date.and_hms 23 59 59) }

/-- The line `view_worklog` prints for one worklog record:
`> {issue} <{author display name}> \x60{time spent}\x60 {comment}`, with the
comment defaulting to the text `no comment` wrapped in backticks. -/
def renderWorklogLine (issue : String) (log : WorklogResponse) : String :=
  "> " ++ issue ++ " <" ++ log.author.display_name ++ "> `" ++ log.time_spent
    ++ "` " ++ log.comment.getD "`no comment`"

/-- Embeds `view_worklog` (src/main.rs): list the worklogs for the context's
dto and render one line per returned record, in order. -/
def view_worklog (domain : String) (context : ViewContext) (response : HttpResult) :
    Except ApiError (List String) :=
  match WorklogApi.worklogs domain (ViewWorklogDto.ofContext context) response with
  | Except.error e => Except.error e
  | Except.ok body => Except.ok (body.map (renderWorklogLine context.issue))

/-- C3: for every `CreateWorklogDto` (hence every calendar date `d` it can
carry), the wire body's `started` string is the `%F`-formatted date followed by
the fixed time-of-day part `T12:00:00.000+0000`: noon UTC with millisecond part
`000` and offset suffix `+0000`. -/
theorem started_is_noon_utc (dto : CreateWorklogDto) :
    (WorklogAddBody.ofDto dto).started = dto.started.formatF ++ "T12:00:00.000+0000" := by
  simp only [WorklogAddBody.ofDto, DateTime.formatFTXf3z, Date.and_hms, String.append_assoc]
  rfl

/-- C5: applying an `Authorization` to a request builder attaches exactly one
authentication mechanism and changes nothing else: `ApiToken` sets the Basic
auth slot to the username and api token and leaves the headers untouched, and
`AccessToken` appends the single header `Authorization: Bearer <token>` and
leaves the Basic auth slot untouched. -/
theorem authorize_attaches_exactly_one (rb : RequestBuilder)
    (username api_token access_token : String) :
    rb.authorize (Authorization.ApiToken username api_token) =
      { basicAuth := some (username, some api_token), headers := rb.headers } ∧
    rb.authorize (Authorization.AccessToken access_token) =
      { basicAuth := rb.basicAuth
        headers := rb.headers ++ [("Authorization", "Bearer " ++ access_token)] } :=
  ⟨rfl, rfl⟩

/-- Comment field of a serialized JSON object, for stating C7. -/
def jsonField (j : Json) (key : String) : Option Json :=
  match j with
  | Json.obj fields => Json.lookupField fields key
  | _ => none

/-- C7: a dto without a comment serializes the wire body's `comment` field as
JSON null — in particular not as the empty string — and a supplied comment is
passed through unchanged as a JSON string. -/
theorem comment_none_serializes_null (dto : CreateWorklogDto) :
    (dto.comment = none →
      jsonField (WorklogAddBody.ofDto dto).toJson "comment" = some Json.null ∧
      jsonField (WorklogAddBody.ofDto dto).toJson "comment" ≠ some (Json.str "")) ∧
    (∀ c, dto.comment = some c →
      jsonField (WorklogAddBody.ofDto dto).toJson "comment" = some (Json.str c)) := by
  constructor
  · intro h
    constructor
    · simp [jsonField, WorklogAddBody.toJson, WorklogAddBody.ofDto, Json.lookupField, h]
    · simp [jsonField, WorklogAddBody.toJson, WorklogAddBody.ofDto, Json.lookupField, h]
  · intro c h
    simp [jsonField, WorklogAddBody.toJson, WorklogAddBody.ofDto, Json.lookupField, h]

/-- C7 witness: a concrete dto without comment serializes `comment` as null,
and one with comment `"did things"` passes it through. -/
theorem comment_none_serializes_null_witness :
    (jsonField (WorklogAddBody.ofDto ⟨"AB-1", none, "2h", ⟨2024, 3, 7⟩⟩).toJson "comment"
        = some Json.null ∧
      jsonField (WorklogAddBody.ofDto ⟨"AB-1", none, "2h", ⟨2024, 3, 7⟩⟩).toJson "comment"
        ≠ some (Json.str "")) ∧
    jsonField (WorklogAddBody.ofDto ⟨"AB-1", some "did things", "2h", ⟨2024, 3, 7⟩⟩).toJson
        "comment" = some (Json.str "did things") :=
  ⟨(comment_none_serializes_null ⟨"AB-1", none, "2h", ⟨2024, 3, 7⟩⟩).1 rfl,
   (comment_none_serializes_null ⟨"AB-1", some "did things", "2h", ⟨2024, 3, 7⟩⟩).2
     "did things" rfl⟩

/-- C9: whenever the view-constructed dto has both bounds present, the lower
bound is at or before the upper bound, measured in seconds since the epoch;
both are built from the same calendar date (00:00:00 and 23:59:59). -/
theorem view_dto_from_le_until (context : ViewContext) (f u : DateTime)
    (hf : (ViewWorklogDto.ofContext context).from = some f)
    (hu : (ViewWorklogDto.ofContext context).until = some u) :
    f.date = context.date ∧ u.date = context.date ∧
    f.epochSeconds ≤ u.epochSeconds := by
  simp only [ViewWorklogDto.ofContext, Option.some.injEq] at hf hu
  subst hf hu
  refine ⟨rfl, rfl, ?_⟩
  simp only [DateTime.epochSeconds, Date.and_hms]
  omega

/-- C9 witness: at a concrete date both bounds are present and ordered. -/
theorem view_dto_from_le_until_witness :
    (Date.mk 2024 3 7 |>.and_hms 0 0 0).date = Date.mk 2024 3 7 ∧
    (Date.mk 2024 3 7 |>.and_hms 23 59 59).date = Date.mk 2024 3 7 ∧
    (Date.mk 2024 3 7 |>.and_hms 0 0 0).epochSeconds ≤
      (Date.mk 2024 3 7 |>.and_hms 23 59 59).epochSeconds :=
  view_dto_from_le_until ⟨⟨2024, 3, 7⟩, "AB-1"⟩ _ _ rfl rfl

/-- C4: the view command's dto bounds the day at 00:00:00 and 23:59:59 UTC of
the context's date, the query carries `startedAfter` and `startedBefore` whose
values are the bound's whole seconds since the epoch with `000` appended, and
for any dto each parameter is present only when the corresponding bound is. -/
theorem view_query_params (context : ViewContext) :
    (ViewWorklogDto.ofContext context).from = some (context.date.and_hms 0 0 0) ∧
    (ViewWorklogDto.ofContext context).until = some (context.date.and_hms 23 59 59) ∧
    worklogQueryParams (ViewWorklogDto.ofContext context) =
      [ ("startedAfter", toString (context.date.and_hms 0 0 0).epochSeconds ++ "000")
      , ("startedBefore", toString (context.date.and_hms 23 59 59).epochSeconds ++ "000") ] ∧
    (∀ dto : ViewWorklogDto, dto.from = none →
      ∀ v, ("startedAfter", v) ∉ worklogQueryParams dto) ∧
    (∀ dto : ViewWorklogDto, dto.until = none →
      ∀ v, ("startedBefore", v) ∉ worklogQueryParams dto) := by
  refine ⟨rfl, rfl, rfl, ?_, ?_⟩
  · intro dto h v
    simp only [worklogQueryParams, h]
    cases hu : dto.until <;> simp
  · intro dto h v
    simp only [worklogQueryParams, h]
    cases hf : dto.from <;> simp

/-- C4 witness: at a concrete date the two query parameters carry the day
bounds' epoch seconds with `000` appended, and a dto with an absent bound omits
the corresponding parameter. -/
theorem view_query_params_witness :
    worklogQueryParams (ViewWorklogDto.ofContext ⟨⟨2024, 3, 7⟩, "AB-1"⟩) =
      [("startedAfter", "1709769600000"), ("startedBefore", "1709855999000")] ∧
    (("startedAfter", "1709769600000") ∉
      worklogQueryParams ⟨"AB-1", none, some (Date.mk 2024 3 7 |>.and_hms 23 59 59)⟩) :=
  ⟨(view_query_params ⟨⟨2024, 3, 7⟩, "AB-1"⟩).2.2.1,
   (view_query_params ⟨⟨2024, 3, 7⟩, "AB-1"⟩).2.2.2.1
     ⟨"AB-1", none, some (Date.mk 2024 3 7 |>.and_hms 23 59 59)⟩ rfl "1709769600000"⟩

/-- C1: the list operation classifies its outcome exactly as specified: a
builder-stage transport error yields `InvalidBaseUrl` with the configured
domain, any other transport failure yields `UnknownError`, 404 yields
`NotFound` for kind `issue` and the requested issue id, 401 and 403 yield
`Unauthorized`, any other non-2xx status yields `UnknownError`, and on 2xx the
body is parsed: failure yields `SerializationError` and success yields the
contained worklog list unchanged and in order. -/
theorem worklogs_classification (domain : String) (context : ViewWorklogDto) :
    WorklogApi.worklogs domain context (HttpResult.err TransportError.builder) =
      Except.error (ApiError.InvalidBaseUrl domain) ∧
    WorklogApi.worklogs domain context (HttpResult.err TransportError.other) =
      Except.error ApiError.UnknownError ∧
    (∀ body, WorklogApi.worklogs domain context (HttpResult.ok 404 body) =
      Except.error (ApiError.NotFound "issue" context.issue)) ∧
    (∀ body, WorklogApi.worklogs domain context (HttpResult.ok 401 body) =
      Except.error ApiError.Unauthorized) ∧
    (∀ body, WorklogApi.worklogs domain context (HttpResult.ok 403 body) =
      Except.error ApiError.Unauthorized) ∧
    (∀ status body, ¬ isSuccessStatus status → status ≠ 404 → status ≠ 401 → status ≠ 403 →
      WorklogApi.worklogs domain context (HttpResult.ok status body) =
        Except.error ApiError.UnknownError) ∧
    (∀ status body, isSuccessStatus status → parsePagedWorklogResponse body = none →
      WorklogApi.worklogs domain context (HttpResult.ok status body) =
        Except.error ApiError.SerializationError) ∧
    (∀ status body paged, isSuccessStatus status →
      parsePagedWorklogResponse body = some paged →
      WorklogApi.worklogs domain context (HttpResult.ok status body) =
        Except.ok paged.worklogs) := by
  refine ⟨rfl, rfl, ?_, ?_, ?_, ?_, ?_, ?_⟩
  · intro body
    simp [WorklogApi.worklogs, isSuccessStatus]
  · intro body
    simp [WorklogApi.worklogs, isSuccessStatus]
  · intro body
    simp [WorklogApi.worklogs, isSuccessStatus]
  · intro status body hs h404 h401 h403
    simp [WorklogApi.worklogs, hs, h404, h401, h403]
  · intro status body hs hp
    simp [WorklogApi.worklogs, hs, hp]
  · intro status body paged hs hp
    simp [WorklogApi.worklogs, hs, hp]

/-- C1 witness: concrete outcomes for a 500 response, a 2xx response with an
unparsable body, and a 2xx response with a well-formed body. -/
theorem worklogs_classification_witness :
    WorklogApi.worklogs "https://jira.example" ⟨"AB-1", none, none⟩
        (HttpResult.ok 500 Json.null) = Except.error ApiError.UnknownError ∧
    WorklogApi.worklogs "https://jira.example" ⟨"AB-1", none, none⟩
        (HttpResult.ok 200 Json.null) = Except.error ApiError.SerializationError ∧
    WorklogApi.worklogs "https://jira.example" ⟨"AB-1", none, none⟩
        (HttpResult.ok 200 (Json.obj [("worklogs", Json.arr [])])) = Except.ok [] :=
  ⟨(worklogs_classification "https://jira.example" ⟨"AB-1", none, none⟩).2.2.2.2.2.1
     500 Json.null (by decide) (by decide) (by decide) (by decide),
   (worklogs_classification "https://jira.example" ⟨"AB-1", none, none⟩).2.2.2.2.2.2.1
     200 Json.null (by decide) rfl,
   (worklogs_classification "https://jira.example" ⟨"AB-1", none, none⟩).2.2.2.2.2.2.2
     200 (Json.obj [("worklogs", Json.arr [])]) ⟨[]⟩ (by decide) rfl⟩

/-- C2: the create operation classifies its outcome exactly as specified: any
transport failure — the builder stage included — yields `UnknownError`, 2xx
yields unit success with no payload parsed, 404 yields `NotFound` for kind
`issue` and the dto's issue id, 401 and 403 yield `Unauthorized`, and any other
status yields `UnknownError`. -/
theorem create_worklog_classification (dto : CreateWorklogDto) :
    (∀ e, WorklogApi.create_worklog dto (HttpResult.err e) =
      Except.error ApiError.UnknownError) ∧
    (∀ status body, isSuccessStatus status →
      WorklogApi.create_worklog dto (HttpResult.ok status body) = Except.ok ()) ∧
    (∀ body, WorklogApi.create_worklog dto (HttpResult.ok 404 body) =
      Except.error (ApiError.NotFound "issue" dto.issue)) ∧
    (∀ body, WorklogApi.create_worklog dto (HttpResult.ok 401 body) =
      Except.error ApiError.Unauthorized) ∧
    (∀ body, WorklogApi.create_worklog dto (HttpResult.ok 403 body) =
      Except.error ApiError.Unauthorized) ∧
    (∀ status body, ¬ isSuccessStatus status → status ≠ 404 → status ≠ 401 → status ≠ 403 →
      WorklogApi.create_worklog dto (HttpResult.ok status body) =
        Except.error ApiError.UnknownError) := by
  refine ⟨?_, ?_, ?_, ?_, ?_, ?_⟩
  · intro e
    cases e <;> rfl
  · intro status body hs
    simp [WorklogApi.create_worklog, hs]
  · intro body
    simp [WorklogApi.create_worklog, isSuccessStatus]
  · intro body
    simp [WorklogApi.create_worklog, isSuccessStatus]
  · intro body
    simp [WorklogApi.create_worklog, isSuccessStatus]
  · intro status body hs h404 h401 h403
    simp [WorklogApi.create_worklog, hs, h404, h401, h403]

/-- C2 witness: concrete outcomes — a builder-stage transport failure is
`UnknownError` (not `InvalidBaseUrl`), a 201 response succeeds, and a 500
response is `UnknownError`. -/
theorem create_worklog_classification_witness :
    WorklogApi.create_worklog ⟨"AB-1", none, "2h", ⟨2024, 3, 7⟩⟩
        (HttpResult.err TransportError.builder) = Except.error ApiError.UnknownError ∧
    WorklogApi.create_worklog ⟨"AB-1", none, "2h", ⟨2024, 3, 7⟩⟩
        (HttpResult.ok 201 Json.null) = Except.ok () ∧
    WorklogApi.create_worklog ⟨"AB-1", none, "2h", ⟨2024, 3, 7⟩⟩
        (HttpResult.ok 500 Json.null) = Except.error ApiError.UnknownError :=
  ⟨(create_worklog_classification ⟨"AB-1", none, "2h", ⟨2024, 3, 7⟩⟩).1
     TransportError.builder,
   (create_worklog_classification ⟨"AB-1", none, "2h", ⟨2024, 3, 7⟩⟩).2.1
     201 Json.null (by decide),
   (create_worklog_classification ⟨"AB-1", none, "2h", ⟨2024, 3, 7⟩⟩).2.2.2.2.2
     500 Json.null (by decide) (by decide) (by decide) (by decide)⟩

/-- C6: a successful view invocation renders exactly one line per returned
record, in order, of the form
`> {issue} <{author display name}> \x60{time spent}\x60 {comment}`, with the
comment replaced by the text `no comment` wrapped in backticks when absent. -/
theorem view_renders_lines (domain : String) (context : ViewContext)
    (response : HttpResult) (ws : List WorklogResponse)
    (h : WorklogApi.worklogs domain (ViewWorklogDto.ofContext context) response =
      Except.ok ws) :
    view_worklog domain context response =
      Except.ok (ws.map (renderWorklogLine context.issue)) ∧
    (∀ name ts c, renderWorklogLine context.issue ⟨⟨name⟩, some c, ts⟩ =
      "> " ++ context.issue ++ " <" ++ name ++ "> `" ++ ts ++ "` " ++ c) ∧
    (∀ name ts, renderWorklogLine context.issue ⟨⟨name⟩, none, ts⟩ =
      "> " ++ context.issue ++ " <" ++ name ++ "> `" ++ ts ++ "` " ++ "`no comment`") := by
  refine ⟨?_, fun name ts c => rfl, fun name ts => rfl⟩
  simp [view_worklog, h]

/-- C6 witness: the spec's example server body renders the expected line. -/
theorem view_renders_lines_witness :
    view_worklog "https://jira.example" ⟨⟨2024, 1, 2⟩, "ISSUE-1"⟩
      (HttpResult.ok 200 (Json.obj [("worklogs", Json.arr
        [Json.obj [ ("author", Json.obj [("displayName", Json.str "Jane")])
                  , ("comment", Json.null)
                  , ("timeSpent", Json.str "2h")]])])) =
      Except.ok ["> ISSUE-1 <Jane> `2h` `no comment`"] :=
  (view_renders_lines "https://jira.example" ⟨⟨2024, 1, 2⟩, "ISSUE-1"⟩
    (HttpResult.ok 200 (Json.obj [("worklogs", Json.arr
      [Json.obj [ ("author", Json.obj [("displayName", Json.str "Jane")])
                , ("comment", Json.null)
                , ("timeSpent", Json.str "2h")]])]))
    [⟨⟨"Jane"⟩, none, "2h"⟩] rfl).1

/-- C8: a 2xx list response whose body is an object with a well-formed
`worklogs` array parses successfully and yields exactly that array's entries;
all other fields of the body are irrelevant. -/
theorem list_ignores_extra_fields (domain : String) (context : ViewWorklogDto)
    (status : Nat) (fields : List (String × Json)) (elems : List Json)
    (ws : List WorklogResponse) (hs : isSuccessStatus status)
    (hlk : Json.lookupField fields "worklogs" = some (Json.arr elems))
    (hparse : parseWorklogList elems = some ws) :
    parsePagedWorklogResponse (Json.obj fields) = some ⟨ws⟩ ∧
    WorklogApi.worklogs domain context (HttpResult.ok status (Json.obj fields)) =
      Except.ok ws := by
  have hp : parsePagedWorklogResponse (Json.obj fields) = some ⟨ws⟩ := by
    simp [parsePagedWorklogResponse, hlk, hparse]
  exact ⟨hp, by simp [WorklogApi.worklogs, hs, hp]⟩

/-- C8 witness: a body carrying pagination metadata next to a one-element
`worklogs` array parses to exactly that element. -/
theorem list_ignores_extra_fields_witness :
    parsePagedWorklogResponse (Json.obj
      [ ("startAt", Json.num 0), ("maxResults", Json.num 20), ("total", Json.num 1)
      , ("worklogs", Json.arr [Json.obj
          [ ("author", Json.obj [("displayName", Json.str "Jane")])
          , ("timeSpent", Json.str "2h")]])]) =
        some ⟨[⟨⟨"Jane"⟩, none, "2h"⟩]⟩ ∧
    WorklogApi.worklogs "https://jira.example" ⟨"AB-1", none, none⟩
      (HttpResult.ok 200 (Json.obj
        [ ("startAt", Json.num 0), ("maxResults", Json.num 20), ("total", Json.num 1)
        , ("worklogs", Json.arr [Json.obj
            [ ("author", Json.obj [("displayName", Json.str "Jane")])
            , ("timeSpent", Json.str "2h")]])])) =
      Except.ok [⟨⟨"Jane"⟩, none, "2h"⟩] :=
  list_ignores_extra_fields "https://jira.example" ⟨"AB-1", none, none⟩ 200
    [ ("startAt", Json.num 0), ("maxResults", Json.num 20), ("total", Json.num 1)
    , ("worklogs", Json.arr [Json.obj
        [ ("author", Json.obj [("displayName", Json.str "Jane")])
        , ("timeSpent", Json.str "2h")]])]
    [Json.obj [ ("author", Json.obj [("displayName", Json.str "Jane")])
              , ("timeSpent", Json.str "2h")]]
    [⟨⟨"Jane"⟩, none, "2h"⟩] (by decide) rfl rfl

/-- One ill-formed element fails the deserialization of the whole array. -/
theorem parseWorklogList_none_of_mem (elems : List Json) (entry : Json)
    (hmem : entry ∈ elems) (hnone : parseWorklogResponse entry = none) :
    parseWorklogList elems = none := by
  induction elems with
  | nil => cases hmem
  | cons a rest ih =>
    cases hmem with
    | head => simp [parseWorklogList, hnone]
    | tail _ hmem2 =>
      cases hpw : parseWorklogResponse a <;>
        simp [parseWorklogList, hpw, ih hmem2]

/-- C10: on a 2xx list response, a body lacking the `worklogs` field fails with
`SerializationError`, as does a body whose `worklogs` array contains an entry
lacking `timeSpent`, lacking `author`, or whose author lacks `displayName`;
an entry with only `author.displayName` and `timeSpent` (no `comment`) parses
with an absent comment. -/
theorem list_mandatory_fields (domain : String) (context : ViewWorklogDto)
    (status : Nat) (hs : isSuccessStatus status) :
    (∀ fields, Json.lookupField fields "worklogs" = none →
      WorklogApi.worklogs domain context (HttpResult.ok status (Json.obj fields)) =
        Except.error ApiError.SerializationError) ∧
    (∀ fields elems entry, Json.lookupField fields "worklogs" = some (Json.arr elems) →
      entry ∈ elems → parseWorklogResponse entry = none →
      WorklogApi.worklogs domain context (HttpResult.ok status (Json.obj fields)) =
        Except.error ApiError.SerializationError) ∧
    (∀ efs, Json.lookupField efs "timeSpent" = none →
      parseWorklogResponse (Json.obj efs) = none) ∧
    (∀ efs, Json.lookupField efs "author" = none →
      parseWorklogResponse (Json.obj efs) = none) ∧
    (∀ efs afs, Json.lookupField efs "author" = some (Json.obj afs) →
      Json.lookupField afs "displayName" = none →
      parseWorklogResponse (Json.obj efs) = none) ∧
    (∀ name ts, parseWorklogResponse (Json.obj
        [ ("author", Json.obj [("displayName", Json.str name)])
        , ("timeSpent", Json.str ts)]) = some ⟨⟨name⟩, none, ts⟩) := by
  refine ⟨?_, ?_, ?_, ?_, ?_, fun name ts => rfl⟩
  · intro fields hlk
    have hp : parsePagedWorklogResponse (Json.obj fields) = none := by
      simp [parsePagedWorklogResponse, hlk]
    simp [WorklogApi.worklogs, hs, hp]
  · intro fields elems entry hlk hmem hnone
    have hl := parseWorklogList_none_of_mem elems entry hmem hnone
    have hp : parsePagedWorklogResponse (Json.obj fields) = none := by
      simp [parsePagedWorklogResponse, hlk, hl]
    simp [WorklogApi.worklogs, hs, hp]
  · intro efs h
    cases hpa : parseAuthorResponse ((Json.lookupField efs "author").getD Json.null) <;>
      simp [parseWorklogResponse, h, hpa]
  · intro efs h
    cases hts : Json.lookupField efs "timeSpent" <;>
      simp [parseWorklogResponse, h, hts, parseAuthorResponse]
  · intro efs afs ha hd
    cases hts : Json.lookupField efs "timeSpent" <;>
      simp [parseWorklogResponse, ha, hd, hts, parseAuthorResponse]

/-- C10 witness: concrete 2xx bodies — one without a `worklogs` field and one
whose single entry lacks `timeSpent` — both fail with `SerializationError`,
while an entry without a comment still parses. -/
theorem list_mandatory_fields_witness :
    WorklogApi.worklogs "https://jira.example" ⟨"AB-1", none, none⟩
      (HttpResult.ok 200 (Json.obj [("total", Json.num 0)])) =
        Except.error ApiError.SerializationError ∧
    WorklogApi.worklogs "https://jira.example" ⟨"AB-1", none, none⟩
      (HttpResult.ok 200 (Json.obj [("worklogs", Json.arr
        [Json.obj [("author", Json.obj [("displayName", Json.str "Jane")])]])])) =
        Except.error ApiError.SerializationError ∧
    parseWorklogResponse (Json.obj
        [ ("author", Json.obj [("displayName", Json.str "Jane")])
        , ("timeSpent", Json.str "2h")]) = some ⟨⟨"Jane"⟩, none, "2h"⟩ := by
  refine ⟨?_, ?_, ?_⟩
  · exact (list_mandatory_fields "https://jira.example" ⟨"AB-1", none, none⟩
      200 (by decide)).1 [("total", Json.num 0)] rfl
  · exact (list_mandatory_fields "https://jira.example" ⟨"AB-1", none, none⟩
      200 (by decide)).2.1
      [("worklogs", Json.arr
        [Json.obj [("author", Json.obj [("displayName", Json.str "Jane")])]])]
      [Json.obj [("author", Json.obj [("displayName", Json.str "Jane")])]]
      (Json.obj [("author", Json.obj [("displayName", Json.str "Jane")])])
      rfl (List.mem_singleton.mpr rfl)
      ((list_mandatory_fields "https://jira.example" ⟨"AB-1", none, none⟩
        200 (by decide)).2.2.1
        [("author", Json.obj [("displayName", Json.str "Jane")])] rfl)
  · exact (list_mandatory_fields "https://jira.example" ⟨"AB-1", none, none⟩
      200 (by decide)).2.2.2.2.2 "Jane" "2h"
